import Mathlib

/-!
Verification development for the RESUME-AI-CHAT repository: a shallow
embedding, in Lean 4, of the answer-reconciliation engine, the apply
workflow, the decision parser and LLM gateway, the top-level router and
the per-turn state clone, together with theorems settling the stated
properties of the specification against this embedding.

Conventions of the embedding:
  - Python strings are Lean `String`; all character-level operations
    (strip, lower, split) are re-implemented over `String.toList` so that
    concrete instances reduce inside the kernel.
  - A Python value that may be `None` or a string is `Option String`
    (`none` is Python `None`); Python truthiness of such a value is
    `pyTruthy` (non-empty string).
  - Python dict fields are either structure fields or association lists;
    string-keyed mutable mappings of the conversation state are functions
    `String -> Option _` updated pointwise.
  - The external LLM is an oracle argument (`Except Unit _`): `.error`
    models the awaited completion call raising, `.ok` its extracted text
    or parsed payload.
  - Python float division only occurs as the keyword-overlap confidence
    score; it is modelled exactly as a numerator/denominator pair compared
    by cross-multiplication (the scores involved are small fractions, for
    which float and rational comparison agree).
-/

/-! ## Python string primitives -/

/-- Characters Python `str.strip()` / `str.split()` treat as whitespace
(ASCII portion). -/
def pyIsSpace (c : Char) : Bool :=
  c = ' ' || c = '\t' || c = '\n' || c = '\r' || c = '\x0b' || c = '\x0c'

def pyStripChars (cs : List Char) : List Char :=
  ((cs.dropWhile pyIsSpace).reverse.dropWhile pyIsSpace).reverse

/-- Python `str.strip()`. -/
def pyStrip (s : String) : String := String.mk (pyStripChars s.toList)

def pyLowerChar (c : Char) : Char :=
  if 'A' ≤ c ∧ c ≤ 'Z' then Char.ofNat (c.toNat + 32) else c

/-- Python `str.lower()` (ASCII portion). -/
def pyLower (s : String) : String := String.mk (s.toList.map pyLowerChar)

def wordsAux : List Char → List Char → List String
  | [], acc => if acc = [] then [] else [String.mk acc.reverse]
  | c :: rest, acc =>
    if pyIsSpace c then
      (if acc = [] then wordsAux rest [] else String.mk acc.reverse :: wordsAux rest [])
    else wordsAux rest (c :: acc)

/-- Python `str.split()` with no argument: split on whitespace runs,
dropping empty pieces. -/
def pyWords (s : String) : List String := wordsAux s.toList []

/-- Python truthiness of a value that is `None` or a string: `None` and
the empty string are falsy. -/
def pyTruthy : Option String → Bool
  | none => false
  | some s => s ≠ ""

/-! ## Answer reconciliation engine
(src/agents/create_section_node.py)

The per-section answer array is `List (Option String)`: a slot holds
Python `None` (never produced by this code, but representable so that the
"no slot is ever null" invariant is a statement rather than a typing
accident) or answer text, the empty string meaning "unanswered". -/

/-- Embeds `safe_initialize_answers` (create_section_node.py lines
275-285): when the stored array is missing, a fresh array of
`len(questions)` empty strings; when its length differs from
`len(questions)`, a fresh array of empty strings with the first
`min(len(existing), len(questions))` entries copied positionally. -/
def safe_initialize_answers (existing : Option (List (Option String)))
    (questions : List String) : List (Option String) :=
  match existing with
  | none => List.replicate questions.length (some "")
  | some cur =>
    if cur.length = questions.length then cur
    else
      (List.range questions.length).foldl
        (fun acc i => if i < min cur.length questions.length
          then acc.set i (cur.getD i (some "")) else acc)
        (List.replicate questions.length (some ""))

/-- Embeds the decision payload fields the reconciliation block of `_node`
reads (create_section_node.py lines 404-435). `none` models the key being
absent from the parsed dict; a key present with a non-list value behaves,
in the source, exactly like `some []` for `question_matches` (the
`isinstance` guard skips every write) and like an absent key for
`updated_answers` in the `elif` branch. -/
structure ReconDecision where
  question_matches : Option (List Int)
  updated_answers : Option (List (Option String))

/-- Embeds the indexed write loop (lines 413-420): for each `match_idx`
in `question_matches`, write `updated_answers[match_idx]` into the answer
slot `match_idx` when it is an in-bounds index of both arrays and the
supplied value is truthy. -/
def applyQuestionMatches (answers : List (Option String)) (qm : List Int)
    (ua : List (Option String)) : List (Option String) :=
  qm.foldl
    (fun acc mi =>
      if 0 ≤ mi ∧ mi.toNat < acc.length ∧ mi.toNat < ua.length ∧
          pyTruthy (ua.getD mi.toNat none) then
        acc.set mi.toNat (ua.getD mi.toNat none)
      else acc)
    answers

/-- Condition of the index-free overwrite (line 425): the supplied value
at `i` is truthy and the existing answer is falsy or strips to fewer than
5 characters. -/
def thresholdOverwrite (ans : Option String) : Bool :=
  match ans with
  | none => true
  | some s => s = "" || (pyStrip s).length < 5

def thresholdPassGo (ua : List (Option String)) (i : Nat) :
    List (Option String) → List (Option String)
  | [] => []
  | ans :: rest =>
    (if i < ua.length ∧ pyTruthy (ua.getD i none) ∧ thresholdOverwrite ans
      then ua.getD i none else ans) :: thresholdPassGo ua (i + 1) rest

/-- Embeds the index-free threshold loop (lines 424-427): slot `i` is
overwritten by `updated_answers[i]` exactly when that value is truthy and
the existing slot is empty/short. The Python loop mutates the list it
enumerates, but only ever at the index currently being visited, so it is
the pointwise map embedded here. -/
def thresholdPass (answers ua : List (Option String)) : List (Option String) :=
  thresholdPassGo ua 0 answers

/-- Keyword-overlap match record: question index, question text and the
confidence score `confNum / confDen` kept as an exact fraction. -/
structure QMatch where
  idx : Nat
  question : String
  confNum : Nat
  confDen : Nat
deriving DecidableEq

/-- Strict comparison of two confidence scores by cross-multiplication
(both denominators are positive by construction). -/
def confGt (a b : QMatch) : Bool := b.confNum * a.confDen < a.confNum * b.confDen

def insertDesc (x : QMatch) : List QMatch → List QMatch
  | [] => [x]
  | y :: ys => if confGt x y then x :: y :: ys else y :: insertDesc x ys

/-- Stable sort by descending confidence: equal scores keep their
original relative order, which is what CPython `sorted(key=..,
reverse=True)` guarantees. -/
def sortByConfDesc (l : List QMatch) : List QMatch :=
  l.foldl (fun acc x => insertDesc x acc) []

/-- Lowercase word set of a string, as a duplicate-free list. -/
def wordSet (s : String) : List String := (pyWords (pyLower s)).dedup

def collectMatches (userW : List String) : Nat → List String → List QMatch
  | _, [] => []
  | i, q :: rest =>
    let qW := wordSet q
    let common := qW.filter (fun w => w ∈ userW)
    (if 0 < common.length
      then [⟨i, q, common.length, max qW.length 1⟩] else []) ++
      collectMatches userW (i + 1) rest

/-- Embeds `detect_question_matches` (create_section_node.py lines
249-265): score each question by shared-lowercase-word count over the
question word-set size, keep positive scores, sort by descending
confidence (stable). -/
def detect_question_matches (user_answer : String) (questions : List String) :
    List QMatch :=
  sortByConfDesc (collectMatches (wordSet user_answer) 0 questions)

/-- Embeds the keyword fallback (lines 428-435). In the source this is
the `else` clause of the `for` loop of the threshold pass; the loop body
contains no `break`, so the clause runs after every completed pass, not
only when the pass placed nothing. It writes the first truthy supplied
answer into the best-matching question slot. -/
def applyFallback (answers : List (Option String)) (user_text : String)
    (questions : List String) (ua : List (Option String)) :
    List (Option String) :=
  match detect_question_matches user_text questions with
  | [] => answers
  | m :: _ =>
    match ua.find? pyTruthy with
    | some v => if m.idx < answers.length then answers.set m.idx v else answers
    | none => answers

/-- Embeds the reconciliation dispatch (lines 408-435): both keys present
selects the indexed write loop; `updated_answers` alone selects the
threshold pass followed unconditionally by the keyword fallback (the
`for`/`else` in the source has no `break`). -/
def reconcileAnswers (answers : List (Option String)) (user_text : String)
    (questions : List String) (d : ReconDecision) : List (Option String) :=
  match d.question_matches, d.updated_answers with
  | some qm, some ua => applyQuestionMatches answers qm ua
  | none, some ua => applyFallback (thresholdPass answers ua) user_text questions ua
  | _, _ => answers

/-- Embeds one full reconciliation step of `_node` for the current
section, assuming the section has an entry in `section_objects` (so line
322 ran `safe_initialize_answers` with the question list of that entry): the
resize, then — when the decision carries either answer key (line 404) —
the reconciliation writes. -/
def nodeAnswersAfter (existing : Option (List (Option String)))
    (questions : List String) (user_text : String) (d : ReconDecision) :
    List (Option String) :=
  let a1 := safe_initialize_answers existing questions
  if d.question_matches.isSome ∨ d.updated_answers.isSome then
    reconcileAnswers a1 user_text questions d
  else a1

/-! ## JSON values and the decision parser (src/agents/utils.py)

JSON numbers are kept unevaluated as `mantissa * 10 ^ exp10` so that the
parser is executable without rational arithmetic; no claim compares
numeric values. The parser follows `json.loads` on its strict defaults
(control characters rejected inside strings, no trailing data); the
`NaN`/`Infinity` extensions of the Python decoder are not modelled, as no
claim exercises them. -/

inductive JValue where
  | null
  | bool (b : Bool)
  | num (mantissa : Int) (exp10 : Int)
  | str (s : String)
  | arr (elems : List JValue)
  | obj (fields : List (String × JValue))

def jsonWsChar (c : Char) : Bool := c = ' ' || c = '\t' || c = '\n' || c = '\r'

def skipJsonWs (cs : List Char) : List Char := cs.dropWhile jsonWsChar

def hexDigitVal (c : Char) : Option Nat :=
  if '0' ≤ c ∧ c ≤ '9' then some (c.toNat - '0'.toNat)
  else if 'a' ≤ c ∧ c ≤ 'f' then some (c.toNat - 'a'.toNat + 10)
  else if 'A' ≤ c ∧ c ≤ 'F' then some (c.toNat - 'A'.toNat + 10)
  else none

def parseHex4 : List Char → Option (Nat × List Char)
  | a :: b :: c :: d :: rest => do
    let va ← hexDigitVal a
    let vb ← hexDigitVal b
    let vc ← hexDigitVal c
    let vd ← hexDigitVal d
    some (((va * 16 + vb) * 16 + vc) * 16 + vd, rest)
  | _ => none

def escChar : Char → Option Char
  | '"' => some '"'
  | '\\' => some '\\'
  | '/' => some '/'
  | 'b' => some '\x08'
  | 'f' => some '\x0c'
  | 'n' => some '\n'
  | 'r' => some '\r'
  | 't' => some '\t'
  | _ => none

/-- Body of a JSON string after the opening quote: returns the decoded
characters and the input after the closing quote. -/
def parseStringBody : Nat → List Char → Option (List Char × List Char)
  | 0, _ => none
  | _ + 1, [] => none
  | fuel + 1, c :: rest =>
    if c = '"' then some ([], rest)
    else if c = '\\' then
      match rest with
      | [] => none
      | e :: rest2 =>
        if e = 'u' then
          match parseHex4 rest2 with
          | some (n, rest3) =>
            (parseStringBody fuel rest3).map (fun pr => (Char.ofNat n :: pr.1, pr.2))
          | none => none
        else
          match escChar e with
          | some ch => (parseStringBody fuel rest2).map (fun pr => (ch :: pr.1, pr.2))
          | none => none
    else if c.toNat < 32 then none
    else (parseStringBody fuel rest).map (fun pr => (c :: pr.1, pr.2))

def isDigitChar (c : Char) : Bool := '0' ≤ c ∧ c ≤ '9'

def digitsToNat (ds : List Char) : Nat :=
  ds.foldl (fun n c => n * 10 + (c.toNat - '0'.toNat)) 0

/-- Integer part per the decoder regex `0|[1-9]\d*`. -/
def parseIntPart : List Char → Option (Nat × List Char)
  | [] => none
  | c :: rest =>
    if c = '0' then some (0, rest)
    else if isDigitChar c then
      let (ds, rest2) := rest.span isDigitChar
      some (digitsToNat (c :: ds), rest2)
    else none

/-- Number per the decoder regex: the optional fraction and exponent
groups participate only when complete, leaving their characters otherwise. -/
def parseNumber (cs : List Char) : Option (Int × Int × List Char) :=
  let sgn := match cs with
    | '-' :: r => (true, r)
    | _ => (false, cs)
  match parseIntPart sgn.2 with
  | none => none
  | some (ip, rest) =>
    let frac := match rest with
      | '.' :: r =>
        let (ds, r2) := r.span isDigitChar
        if ds = [] then (([] : List Char), rest) else (ds, r2)
      | _ => ([], rest)
    let expo := match frac.2 with
      | e :: r =>
        if e = 'e' ∨ e = 'E' then
          match r with
          | '+' :: r2 =>
            let (ds, r3) := r2.span isDigitChar
            if ds = [] then ((0 : Int), frac.2) else ((digitsToNat ds : Int), r3)
          | '-' :: r2 =>
            let (ds, r3) := r2.span isDigitChar
            if ds = [] then ((0 : Int), frac.2) else (-(digitsToNat ds : Int), r3)
          | _ =>
            let (ds, r3) := r.span isDigitChar
            if ds = [] then ((0 : Int), frac.2) else ((digitsToNat ds : Int), r3)
        else ((0 : Int), frac.2)
      | [] => ((0 : Int), frac.2)
    let m : Int := (ip * 10 ^ frac.1.length + digitsToNat frac.1 : Nat)
    some (if sgn.1 then -m else m, expo.1 - frac.1.length, expo.2)

/-- Python dict insertion: an existing key keeps its position and gets the
new value, a new key is appended. -/
def insertKey (kvs : List (String × JValue)) (k : String) (v : JValue) :
    List (String × JValue) :=
  if kvs.any (fun p => p.1 = k) then kvs.map (fun p => if p.1 = k then (k, v) else p)
  else kvs ++ [(k, v)]

def litPrefix (lit : List Char) (cs : List Char) : Option (List Char) :=
  match lit, cs with
  | [], rest => some rest
  | l :: ls, c :: rest => if c = l then litPrefix ls rest else none
  | _ :: _, [] => none

mutual

/-- One JSON value, leading whitespace allowed, returning the rest of the
input. Fuel strictly exceeds the remaining input length at every call, so
it never runs out on input the Python decoder accepts. -/
def parseValue : Nat → List Char → Option (JValue × List Char)
  | 0, _ => none
  | fuel + 1, cs =>
    match skipJsonWs cs with
    | [] => none
    | c :: rest =>
      if c = '{' then parseObjBody fuel (skipJsonWs rest) []
      else if c = '[' then parseArrBody fuel (skipJsonWs rest) []
      else if c = '"' then
        (parseStringBody (fuel + 1) rest).map (fun pr => (JValue.str (String.mk pr.1), pr.2))
      else if c = 't' then
        (litPrefix ['r', 'u', 'e'] rest).map (fun r => (JValue.bool true, r))
      else if c = 'f' then
        (litPrefix ['a', 'l', 's', 'e'] rest).map (fun r => (JValue.bool false, r))
      else if c = 'n' then
        (litPrefix ['u', 'l', 'l'] rest).map (fun r => (JValue.null, r))
      else
        (parseNumber (c :: rest)).map (fun pr => (JValue.num pr.1 pr.2.1, pr.2.2))
termination_by structural fuel => fuel

/-- Object members from just after `\x7b` (whitespace skipped), given the
members accumulated so far. -/
def parseObjBody : Nat → List Char → List (String × JValue) →
    Option (JValue × List Char)
  | 0, _, _ => none
  | _ + 1, [], _ => none
  | fuel + 1, c :: rest, acc =>
    if c = '}' && acc.isEmpty then some (JValue.obj [], rest)
    else if c = '"' then
      match parseStringBody (fuel + 1) rest with
      | none => none
      | some (kcs, rest2) =>
        match skipJsonWs rest2 with
        | ':' :: rest3 =>
          match parseValue fuel rest3 with
          | none => none
          | some (v, rest4) =>
            let acc2 := insertKey acc (String.mk kcs) v
            match skipJsonWs rest4 with
            | ',' :: rest5 => parseObjBody fuel (skipJsonWs rest5) acc2
            | '}' :: rest5 => some (JValue.obj acc2, rest5)
            | _ => none
        | _ => none
    else none
termination_by structural fuel => fuel

/-- Array elements from just after `[` (whitespace skipped). -/
def parseArrBody : Nat → List Char → List JValue → Option (JValue × List Char)
  | 0, _, _ => none
  | _ + 1, [], _ => none
  | fuel + 1, c :: rest, acc =>
    if c = ']' && acc.isEmpty then some (JValue.arr [], rest)
    else
      match parseValue fuel (c :: rest) with
      | none => none
      | some (v, rest2) =>
        match skipJsonWs rest2 with
        | ',' :: rest3 => parseArrBody fuel (skipJsonWs rest3) (acc ++ [v])
        | ']' :: rest3 => some (JValue.arr (acc ++ [v]), rest3)
        | _ => none
termination_by structural fuel => fuel

end

/-- Embeds `json.loads`: one value, surrounding whitespace only, the
whole input consumed. -/
def parseJsonChars (cs : List Char) : Option JValue :=
  match parseValue (2 * cs.length + 4) cs with
  | some (v, rest) => if skipJsonWs rest = [] then some v else none
  | none => none

def parseJson (s : String) : Option JValue := parseJsonChars s.toList

/-! ## Locating the JSON object: the search regex of utils.py line 87

The pattern (an opening brace, non-brace characters and complete
depth-one brace groups, a closing brace) backtracks only over the number
of depth-one groups, and each shorter attempt fails immediately, so the
regex engine behaves as the deterministic scanner below: at a candidate
start, runs of non-brace characters alternate with complete `\x7b..\x7d`
groups until the first closing brace at depth one; `re.search` tries
candidate starts left to right. -/

def notBrace (c : Char) : Bool := c ≠ '{' ∧ c ≠ '}'

def matchBody : Nat → List Char → Option (List Char × List Char)
  | 0, _ => none
  | fuel + 1, cs =>
    let (run, rest) := cs.span notBrace
    match rest with
    | '}' :: rest2 => some (run ++ ['}'], rest2)
    | '{' :: rest2 =>
      let inner := rest2.span notBrace
      match inner.2 with
      | '}' :: rest4 =>
        (matchBody fuel rest4).map
          (fun pr => (run ++ '{' :: (inner.1 ++ '}' :: pr.1), pr.2))
      | _ => none
    | _ => none

def matchJsonAt : List Char → Option (List Char)
  | '{' :: rest => (matchBody (rest.length + 1) rest).map (fun pr => '{' :: pr.1)
  | _ => none

def searchJson : List Char → Option (List Char)
  | [] => none
  | c :: rest =>
    match matchJsonAt (c :: rest) with
    | some m => some m
    | none => searchJson rest

/-- Embeds `re.search` of the brace pattern: the text of the first match,
if any. -/
def findJsonMatch (s : String) : Option String := (searchJson s.toList).map String.mk

/-! ## Decision parser and LLM gateway (src/agents/utils.py) -/

/-- Errors `extract_and_validate_json` can raise: the `ValueError`s it
raises itself (or converts a `json.JSONDecodeError` into), and the
`TypeError` a set-membership test on an unhashable value raises. -/
inductive PyError where
  | valueError (msg : String)
  | typeError (msg : String)
deriving DecidableEq

def lookupKey (kvs : List (String × JValue)) (k : String) : Option JValue :=
  (kvs.find? (fun p => p.1 = k)).map (fun p => p.2)

/-- Replaces the value at an existing key in place. -/
def setKey (kvs : List (String × JValue)) (k : String) (v : JValue) :
    List (String × JValue) :=
  kvs.map (fun p => if p.1 = k then (k, v) else p)

def validActions : List String := ["answer", "route", "stay", "switch", "exit", "apply"]

/-- Membership of a JSON value in the `valid_actions` set of strings:
only a string can be a member. -/
def isValidAction : JValue → Bool
  | .str s => validActions.contains s
  | _ => false

/-- A JSON value Python can hash, so that a set-membership test on it
returns instead of raising `TypeError`. -/
def isHashable : JValue → Bool
  | .arr _ => false
  | .obj _ => false
  | _ => true

/-- The degraded decision built when no JSON object can be located
(utils.py line 89). -/
def degradedDecision (raw : String) : List (String × JValue) :=
  [("action", JValue.str "answer"), ("route", JValue.null),
   ("answer", JValue.str (pyStrip raw))]

/-- Embeds `extract_and_validate_json` (utils.py lines 79-109). The
`except` clause there catches only `json.JSONDecodeError`, so the
`ValueError`s raised inside the `try` propagate. -/
def extract_and_validate_json (raw_text : String) :
    Except PyError (List (String × JValue)) :=
  if pyStrip raw_text = "" then .error (.valueError "Empty response from LLM")
  else
    match findJsonMatch raw_text with
    | none => .ok (degradedDecision raw_text)
    | some json_text =>
      match parseJson json_text with
      | none => .error (.valueError "Invalid JSON format")
      | some (JValue.obj kvs) =>
        match lookupKey kvs "action" with
        | none => .error (.valueError "Missing required action key in JSON response")
        | some av =>
          if isHashable av then
            if isValidAction av then .ok kvs
            else .ok (setKey kvs "action" (JValue.str "answer"))
          else .error (.typeError "unhashable type")
      | some _ => .error (.valueError "Response is not a JSON object")

/-- The offline-mode decision of `call_llm_json_decision` (utils.py line 126). -/
def offlineDecision : List (String × JValue) :=
  [("action", JValue.str "answer"), ("route", JValue.null),
   ("answer", JValue.str "(Offline) I received your query and will help once an API key is configured.")]

/-- The safe default decision of the gateway `except` clause (utils.py
line 138). -/
def errorDecision : List (String × JValue) :=
  [("action", JValue.str "answer"), ("route", JValue.null),
   ("answer", JValue.str "I encountered an error processing your request. Please try again.")]

/-- Embeds `call_llm_json_decision` (utils.py lines 111-138). The oracle
`llm` is the completion call: `.error` a transport/service failure,
`.ok raw` the extracted response text (already defaulted to the empty
string when extraction yields nothing). The single `try` wraps both the
completion call and the parse, and its `except Exception` clause catches
every error either raises, so the function always returns a decision
object and never propagates an error. -/
def call_llm_json_decision (offline : Bool) (llm : Except Unit String) :
    List (String × JValue) :=
  if offline then offlineDecision
  else
    match llm with
    | .error _ => errorDecision
    | .ok raw =>
      match extract_and_validate_json raw with
      | .ok parsed => parsed
      | .error _ => errorDecision

/-! ## Conversation state (src/agents/resume_builder_state.py)

String-keyed dicts of the state are association lists in insertion order;
`dictGet`/`dictSet` embed `d.get(k)` and `d[k] = v`. `execution_meta` and
the message metadata (ids, timestamps) belong to the external framework
and are not modelled; a `Message` is its role and content. -/

structure Msg where
  role : String
  content : String
deriving DecidableEq

/-- Value stored at `section_objects[name]`: the keys this core reads and
writes, each optional or defaulted exactly as the `.get(key, default)`
accesses assume. -/
structure SectionAnalysis where
  alignment_score : Option Int := none
  missing_requirements : List String := []
  recommended_questions : List String := []
  last_updated : Option String := none
deriving DecidableEq

def dictGet (l : List (String × α)) (k : String) : Option α :=
  (l.find? (fun p => p.1 = k)).map (fun p => p.2)

/-- Python dict assignment: an existing key keeps its position, a new key
is appended. -/
def dictSet (l : List (String × α)) (k : String) (v : α) : List (String × α) :=
  if l.any (fun p => p.1 = k) then l.map (fun p => if p.1 = k then (k, v) else p)
  else l ++ [(k, v)]

/-- Embeds `ResumeBuilderState` (resume_builder_state.py lines 14-29)
with the pydantic field defaults. -/
structure ResumeBuilderState where
  jd_summary : Option String := none
  resume_sections : List (String × JValue) := []
  section_objects : List (String × SectionAnalysis) := []
  current_section : Option String := none
  src_node : Option String := none
  recommended_answers : List (String × List (Option String)) := []
  routing_attempts : Nat := 0
  resume_schema : Option JValue := none
  cv_summary : List (String × String) := []
  context : List Msg := []
  context_summary : Option String := none

/-- Embeds `clone_state` (utils.py lines 159-174): a fresh state carrying
the listed fields forward; every field the function does not assign keeps
the fresh-state default. -/
def clone_state (old_state : ResumeBuilderState) : ResumeBuilderState :=
  { jd_summary := old_state.jd_summary
    resume_sections := old_state.resume_sections
    section_objects := old_state.section_objects
    context := old_state.context
    current_section := old_state.current_section
    cv_summary := old_state.cv_summary
    recommended_answers := old_state.recommended_answers }

def SECTION_NAMES : List String :=
  ["skills", "experiences", "education", "projects", "summary", "contact",
   "certificates", "publications", "languages", "recommendations", "custom"]

/-- Targets of the conditional-edge function: the `END` sentinel, the
`general_chat` key (mapped to the router node) and a section key. -/
inductive RouteTarget where
  | toEnd
  | generalChat
  | section (name : String)
deriving DecidableEq

/-- Embeds `route_to_section` (graph_builder.py lines 75-84). -/
def route_to_section (state : ResumeBuilderState) : RouteTarget :=
  if state.src_node = state.current_section then RouteTarget.toEnd
  else
    match state.current_section with
    | none => RouteTarget.generalChat
    | some sec =>
      if SECTION_NAMES.contains sec then RouteTarget.section sec
      else RouteTarget.toEnd

/-! ## The apply workflow (src/agents/create_section_node.py lines 130-247)

`update_cv_summary` and the re-analysis completion are external calls;
they enter as oracles. `cvOutcome` is the outcome of the awaited
`update_cv_summary` call: `some m` a returned summary mapping (the
function catches its own errors internally and returns the previous
mapping in that case), `none` the call raising, which the `except` at
lines 159-160 turns into leaving `cv_summary` unchanged. `analysisOutcome
= .ok r` carries the analysis dict after the `setdefault` calls of lines
214-217 filled the four fields; `.error` is the completion call raising,
handled by the `except` at lines 240-247. -/

structure AnalysisResult where
  alignment_score : Int
  missing_requirements : List String
  recommended_questions : List String
  analysis_summary : String
deriving DecidableEq

/-- The fixed result returned on the offline-mode early return (lines
189-195); note that this return path skips every state update that
follows it. -/
def offlineAnalysis (section_name : String) : AnalysisResult :=
  { alignment_score := 75
    missing_requirements := ["More specific examples needed"]
    recommended_questions := ["Can you add more specific examples to your " ++ section_name ++ "?"]
    analysis_summary := "Offline mode - please configure API key for full analysis" }

/-- The fixed result returned by the `except` clause (lines 240-247). -/
def errorAnalysis (section_name : String) : AnalysisResult :=
  { alignment_score := 70
    missing_requirements := ["Analysis error - please try again"]
    recommended_questions := ["Let\x27s continue improving your " ++ section_name ++ ". What specific details can you add?"]
    analysis_summary := "There was an error analyzing the updated " ++ section_name ++ ". The changes have been saved." }

/-- Embeds `apply_section_changes` (create_section_node.py lines
130-247): store the new content; on non-empty question and answer lists
run the CV-summary aggregation; clear the answer array (line 162); then
either return early (offline), return the fallback result (completion
raised), or write the new analysis into `section_objects` and size the
answer array to the new question list. -/
def apply_section_changes (state : ResumeBuilderState)
    (section_name : String) (updated_content : String) (offline : Bool)
    (cvOutcome : Option (List (String × String)))
    (analysisOutcome : Except Unit AnalysisResult) :
    ResumeBuilderState × AnalysisResult :=
  let st1 := { state with
    resume_sections := dictSet state.resume_sections section_name (JValue.str updated_content) }
  let section_questions :=
    ((dictGet st1.section_objects section_name).getD {}).recommended_questions
  let section_answers := (dictGet st1.recommended_answers section_name).getD []
  let st2 :=
    if section_questions ≠ [] ∧ section_answers ≠ [] then
      match cvOutcome with
      | some m => { st1 with cv_summary := m }
      | none => st1
    else st1
  let st3 := { st2 with
    recommended_answers := dictSet st2.recommended_answers section_name [] }
  if offline then (st3, offlineAnalysis section_name)
  else
    match analysisOutcome with
    | .error _ => (st3, errorAnalysis section_name)
    | .ok r =>
      let so := (dictGet st3.section_objects section_name).getD {}
      let so2 := { so with
        alignment_score := some r.alignment_score
        missing_requirements := r.missing_requirements
        recommended_questions := r.recommended_questions
        last_updated := some "just_now" }
      let st4 := { st3 with section_objects := dictSet st3.section_objects section_name so2 }
      let st5 := { st4 with
        recommended_answers := dictSet st4.recommended_answers section_name
          (if r.recommended_questions ≠ [] then
            List.replicate r.recommended_questions.length (some "") else []) }
      (st5, r)

/-! ## Top-level router (src/agents/general_chat_section_routing.py)

The serialization of decision values into message text uses a model of
`json.dumps` with the default separators; escaping is modelled for the
quote, backslash and the common control characters (the `ensure_ascii`
transliteration of other code points is not exercised by any claim). -/

def jEscapeChar (c : Char) : List Char :=
  if c = '"' then ['\\', '"']
  else if c = '\\' then ['\\', '\\']
  else if c = '\n' then ['\\', 'n']
  else if c = '\r' then ['\\', 'r']
  else if c = '\t' then ['\\', 't']
  else [c]

def jEscapeStr (s : String) : String :=
  String.mk (s.toList.foldr (fun c acc => jEscapeChar c ++ acc) [])

def joinCommaSpace : List String → String
  | [] => ""
  | [x] => x
  | x :: rest => x ++ ", " ++ joinCommaSpace rest

/-- Model of `json.dumps` with default separators. -/
def jdumps : JValue → String
  | .null => "null"
  | .bool true => "true"
  | .bool false => "false"
  | .num m e => toString m ++ (if e = 0 then "" else "e" ++ toString e)
  | .str s => "\"" ++ jEscapeStr s ++ "\""
  | .arr xs => "[" ++ joinCommaSpace (xs.attach.map (fun x => jdumps x.1)) ++ "]"
  | .obj kvs =>
    "\x7b" ++
      joinCommaSpace (kvs.attach.map
        (fun p => "\"" ++ jEscapeStr p.1.1 ++ "\": " ++ jdumps p.1.2)) ++
      "\x7d"
decreasing_by
· have h := List.sizeOf_lt_of_mem x.2
  simp only [JValue.arr.sizeOf_spec]
  omega
· have h := List.sizeOf_lt_of_mem p.2
  have h2 : sizeOf p.1.2 < sizeOf p.1 := by
    obtain ⟨a, b⟩ := p.1
    simp
  simp only [JValue.obj.sizeOf_spec]
  omega

/-- Python truthiness of `parsed.get(key)` for a JSON decision field. -/
def jvTruthy : Option JValue → Bool
  | none => false
  | some JValue.null => false
  | some (JValue.bool b) => b
  | some (JValue.num m _) => m ≠ 0
  | some (JValue.str s) => s ≠ ""
  | some (JValue.arr xs) => ¬ xs.isEmpty
  | some (JValue.obj kvs) => ¬ kvs.isEmpty

def jvIsStr (v : Option JValue) (s : String) : Bool :=
  match v with
  | some (JValue.str t) => t = s
  | _ => false

/-- Python `v in SECTION_NAMES` for a decision field: list membership by
equality, false for every non-string JSON value. -/
def jvInSectionNames : Option JValue → Bool
  | some (JValue.str s) => SECTION_NAMES.contains s
  | _ => false

def jvAsStr : Option JValue → String
  | some (JValue.str s) => s
  | _ => ""

/-- Message content for a decision field used as assistant text (a
non-string value is rendered; the source hands the raw value to the
Message constructor). -/
def jvContentStr : JValue → String
  | JValue.str s => s
  | v => jdumps v

def INITIAL_GREETING : String :=
  "INITIAL_GREETING: Greet the user, summarize JD, list sections with alignment and missing requirements, invite next action."

def NO_ANSWER_TEXT : String :=
  "I cannot determine an answer — please provide more details or ask to route to a specific section."

def UNDECIDED_TEXT : String :=
  "I couldn\x27t decide automatically. Would you like me to (1) analyze sections to suggest improvements, or (2) open a specific section? Use /skills, /experiences, /education, or /projects."

/-- What a node hands back to the framework: the mutated state object, or
a single message. -/
inductive NodeReturn where
  | state
  | message (m : Msg)
deriving DecidableEq

/-- Embeds `general_chat_and_section_routing`
(general_chat_section_routing.py lines 31-134). The oracle pair
`(offline, llm)` feeds the gateway exactly as in `call_llm_json_decision`;
the `except` clause around the gateway call (lines 95-112) is unreachable
because the gateway catches every exception itself (see
`call_llm_json_decision`), so it is not modelled. The compact section
summary and prompt build (lines 58-91) only shape the prompt text and are
not modelled. -/
def general_chat_and_section_routing (state : ResumeBuilderState)
    (offline : Bool) (llm : Except Unit String) :
    ResumeBuilderState × NodeReturn :=
  let last_msg := state.context.getLast?
  let first_turn :=
    match last_msg with
    | none => true
    | some m => m.role ≠ "user"
  let _user_text :=
    if first_turn then INITIAL_GREETING
    else (last_msg.map (fun m => m.content)).getD ""
  match state.current_section with
  | some cs =>
    ({ state with
        context := state.context ++
          [⟨"assistant", jdumps (JValue.obj [("route", JValue.str cs)])⟩] },
      NodeReturn.state)
  | none =>
    let parsed := call_llm_json_decision offline llm
    let action := lookupKey parsed "action"
    let route_to := lookupKey parsed "route"
    let answer_text := lookupKey parsed "answer"
    if jvIsStr action "route" ∧ jvTruthy route_to ∧ jvInSectionNames route_to then
      let rt := jvAsStr route_to
      let note :=
        match lookupKey parsed "reason" with
        | some r => if jvTruthy (some r) then r
            else JValue.str ("Routing to \x27" ++ rt ++ "\x27")
        | none => JValue.str ("Routing to \x27" ++ rt ++ "\x27")
      ({ state with
          current_section := some rt
          context := state.context ++
            [⟨"assistant", jdumps (JValue.obj [("route", JValue.str rt), ("note", note)])⟩] },
        NodeReturn.state)
    else if jvIsStr action "answer" then
      let content :=
        if jvTruthy answer_text then jvContentStr ((answer_text).getD JValue.null)
        else NO_ANSWER_TEXT
      let m : Msg := ⟨"assistant", content⟩
      ({ state with context := state.context ++ [m] }, NodeReturn.message m)
    else
      let m : Msg := ⟨"assistant", UNDECIDED_TEXT⟩
      ({ state with context := state.context ++ [m] }, NodeReturn.message m)

/-! ## Helper lemmas -/

/-- Folds whose step preserves length preserve length. -/
lemma length_foldl_invariant {α β : Type} (l : List β) (f : List α → β → List α)
    (base : List α) (hf : ∀ acc b, (f acc b).length = acc.length) :
    (l.foldl f base).length = base.length := by
  induction l generalizing base with
  | nil => rfl
  | cons x xs ih => rw [List.foldl_cons, ih, hf]

lemma length_applyQuestionMatches (answers : List (Option String)) (qm : List Int)
    (ua : List (Option String)) :
    (applyQuestionMatches answers qm ua).length = answers.length := by
  refine length_foldl_invariant qm _ answers (fun acc b => ?_)
  split
  · exact List.length_set acc b.toNat _
  · rfl

lemma length_thresholdPassGo (ua : List (Option String)) (k : Nat)
    (a : List (Option String)) : (thresholdPassGo ua k a).length = a.length := by
  induction a generalizing k with
  | nil => rfl
  | cons x xs ih => simp [thresholdPassGo, ih]

lemma length_applyFallback (a : List (Option String)) (u : String)
    (qs : List String) (ua : List (Option String)) :
    (applyFallback a u qs ua).length = a.length := by
  unfold applyFallback
  split
  · rfl
  · split
    · split
      · exact List.length_set a _ _
      · rfl
    · rfl

lemma length_thresholdPass (a ua : List (Option String)) :
    (thresholdPass a ua).length = a.length := length_thresholdPassGo ua 0 a

lemma length_reconcileAnswers (a : List (Option String)) (u : String)
    (qs : List String) (d : ReconDecision) :
    (reconcileAnswers a u qs d).length = a.length := by
  unfold reconcileAnswers
  match d.question_matches, d.updated_answers with
  | some qm, some ua => exact length_applyQuestionMatches a qm ua
  | none, some ua => rw [length_applyFallback, length_thresholdPass]
  | none, none => rfl
  | some _, none => rfl

lemma safe_initialize_length (ex : Option (List (Option String)))
    (qs : List String) : (safe_initialize_answers ex qs).length = qs.length := by
  cases ex with
  | none => exact List.length_replicate _ _
  | some cur =>
    by_cases h : cur.length = qs.length
    · simp only [safe_initialize_answers, if_pos h]
      exact h
    · simp only [safe_initialize_answers, if_neg h]
      rw [length_foldl_invariant _ _ _ (fun acc b => ?_), List.length_replicate]
      split
      · exact List.length_set acc b _
      · rfl

/-- Pointwise value of a fold that writes `g i` at each listed index `i`
satisfying `P` (a write at one index never affects another, and repeated
writes agree). -/
lemma getElem?_foldl_setIdx {α : Type} (idxs : List Nat) (P : Nat → Prop)
    [DecidablePred P] (g : Nat → α) (base : List α) (j : Nat) :
    ((idxs.foldl (fun acc i => if P i then acc.set i (g i) else acc) base))[j]? =
      if j ∈ idxs ∧ P j ∧ j < base.length then some (g j) else base[j]? := by
  induction idxs generalizing base with
  | nil => simp
  | cons i rest ih =>
    rw [List.foldl_cons, ih]
    have hlen : (if P i then base.set i (g i) else base).length = base.length := by
      split
      · exact List.length_set base i _
      · rfl
    rw [hlen]
    by_cases hj1 : j ∈ rest ∧ P j ∧ j < base.length
    · rw [if_pos hj1, if_pos ⟨List.mem_cons_of_mem i hj1.1, hj1.2⟩]
    · rw [if_neg hj1]
      by_cases hj2 : j ∈ i :: rest ∧ P j ∧ j < base.length
      · have hij : i = j := by
          rcases List.mem_cons.mp hj2.1 with h | h
          · exact h.symm
          · exact absurd ⟨h, hj2.2⟩ hj1
        rw [if_pos hj2, hij, if_pos (hij ▸ hj2.2.1), List.getElem?_set,
          if_pos rfl, if_pos hj2.2.2]
      · rw [if_neg hj2]
        by_cases hPi : P i
        · rw [if_pos hPi, List.getElem?_set]
          by_cases hij : i = j
          · subst hij
            have hout : ¬ i < base.length := fun hlt =>
              hj2 ⟨List.mem_cons_self i rest, hPi, hlt⟩
            rw [if_pos rfl, if_neg hout, List.getElem?_eq_none (Nat.le_of_not_lt hout)]
          · rw [if_neg hij]
        · rw [if_neg hPi]

/-- Pointwise value of `safe_initialize_answers` on a stored array: shared
indices keep the stored value, new indices get empty text, indices past
the question list do not exist. -/
lemma getElem?_safe_initialize_some (l : List (Option String))
    (qs : List String) (j : Nat) :
    (safe_initialize_answers (some l) qs)[j]? =
      if j < min l.length qs.length then l[j]?
      else if j < qs.length then some (some "") else none := by
  by_cases hlen : l.length = qs.length
  · simp only [safe_initialize_answers, if_pos hlen]
    have hmin : min l.length qs.length = l.length := by omega
    rw [hmin]
    by_cases hj : j < l.length
    · rw [if_pos hj]
    · rw [if_neg hj, List.getElem?_eq_none (Nat.le_of_not_lt hj)]
      have hq : ¬ j < qs.length := by omega
      rw [if_neg hq]
  · simp only [safe_initialize_answers, if_neg hlen]
    rw [getElem?_foldl_setIdx (List.range qs.length)
      (fun i => i < min l.length qs.length) (fun i => l.getD i (some "")) _ j]
    rw [List.length_replicate, List.getElem?_replicate]
    simp only [List.mem_range]
    by_cases hj : j < min l.length qs.length
    · have hjq : j < qs.length := by omega
      have hjl : j < l.length := by omega
      rw [if_pos ⟨hjq, hj, hjq⟩, if_pos hj, List.getD_eq_getElem?_getD,
        List.getElem?_eq_getElem hjl]
      rfl
    · rw [if_neg (fun h => hj h.2.1), if_neg hj]

lemma isSome_of_pyTruthy {v : Option String} (h : pyTruthy v = true) : v.isSome := by
  cases v with
  | none => simp [pyTruthy] at h
  | some s => rfl

lemma forall_isSome_set {l : List (Option String)} {i : Nat} {v : Option String}
    (hl : ∀ x ∈ l, x.isSome) (hv : v.isSome) : ∀ x ∈ l.set i v, x.isSome := by
  intro x hx
  rcases List.mem_or_eq_of_mem_set hx with h | h
  · exact hl x h
  · exact h ▸ hv

lemma forall_isSome_applyQuestionMatches {answers : List (Option String)}
    (qm : List Int) (ua : List (Option String))
    (hl : ∀ x ∈ answers, x.isSome) :
    ∀ x ∈ applyQuestionMatches answers qm ua, x.isSome := by
  induction qm generalizing answers with
  | nil => exact hl
  | cons mi rest ih =>
    rw [applyQuestionMatches, List.foldl_cons]
    refine ih ?_
    split
    · rename_i hcond
      exact forall_isSome_set hl (isSome_of_pyTruthy hcond.2.2.2)
    · exact hl

lemma forall_isSome_thresholdPassGo {a : List (Option String)}
    (ua : List (Option String)) (k : Nat) (hl : ∀ x ∈ a, x.isSome) :
    ∀ x ∈ thresholdPassGo ua k a, x.isSome := by
  induction a generalizing k with
  | nil => exact fun x hx => absurd hx (List.not_mem_nil x)
  | cons y ys ih =>
    intro x hx
    rw [thresholdPassGo] at hx
    rcases List.mem_cons.mp hx with h | h
    · subst h
      split
      · rename_i hcond
        exact isSome_of_pyTruthy hcond.2.1
      · exact hl y (List.mem_cons_self y ys)
    · exact ih (k + 1) (fun z hz => hl z (List.mem_cons_of_mem y hz)) x h

lemma forall_isSome_applyFallback {a : List (Option String)} (u : String)
    (qs : List String) (ua : List (Option String))
    (hl : ∀ x ∈ a, x.isSome) : ∀ x ∈ applyFallback a u qs ua, x.isSome := by
  unfold applyFallback
  split
  · exact hl
  · split
    · rename_i v hfind
      split
      · exact forall_isSome_set hl (isSome_of_pyTruthy (List.find?_some hfind))
      · exact hl
    · exact hl

lemma forall_isSome_reconcileAnswers {a : List (Option String)} (u : String)
    (qs : List String) (d : ReconDecision) (hl : ∀ x ∈ a, x.isSome) :
    ∀ x ∈ reconcileAnswers a u qs d, x.isSome := by
  unfold reconcileAnswers
  match d.question_matches, d.updated_answers with
  | some qm, some ua => exact forall_isSome_applyQuestionMatches qm ua hl
  | none, some ua =>
    exact forall_isSome_applyFallback u qs ua
      (forall_isSome_thresholdPassGo ua 0 hl)
  | none, none => exact hl
  | some _, none => exact hl

lemma safe_initialize_forall_isSome {ex : Option (List (Option String))}
    (qs : List String) (h : ∀ l, ex = some l → ∀ a ∈ l, a.isSome) :
    ∀ x ∈ safe_initialize_answers ex qs, x.isSome := by
  match ex with
  | none =>
    intro x hx
    rw [List.eq_of_mem_replicate hx]
    rfl
  | some l =>
    intro x hx
    rcases List.mem_iff_getElem?.mp hx with ⟨j, hj⟩
    rw [getElem?_safe_initialize_some] at hj
    split at hj
    · rename_i hlt
      exact h l rfl x (List.mem_iff_getElem?.mpr ⟨j, hj⟩)
    · split at hj
      · rw [Option.some.injEq] at hj
        rw [← hj]
        rfl
      · exact absurd hj (by simp)

lemma applyQuestionMatches_cons (answers : List (Option String)) (mi : Int)
    (rest : List Int) (ua : List (Option String)) :
    applyQuestionMatches answers (mi :: rest) ua =
      applyQuestionMatches
        (if 0 ≤ mi ∧ mi.toNat < answers.length ∧ mi.toNat < ua.length ∧
            pyTruthy (ua.getD mi.toNat none) then
          answers.set mi.toNat (ua.getD mi.toNat none)
        else answers) rest ua := rfl

/-- Pointwise value of the indexed write loop: slot `j` receives
`updated_answers[j]` exactly when `j` is listed in `question_matches`,
in bounds on both sides and the supplied value is truthy; every other
slot keeps its value. -/
lemma getElem?_applyQuestionMatches (qm : List Int) (ua : List (Option String))
    (answers : List (Option String)) (j : Nat) :
    (applyQuestionMatches answers qm ua)[j]? =
      if (j : Int) ∈ qm ∧ j < answers.length ∧ j < ua.length ∧
          pyTruthy (ua.getD j none) then
        some (ua.getD j none)
      else answers[j]? := by
  induction qm generalizing answers with
  | nil => simp [applyQuestionMatches]
  | cons mi rest ih =>
    rw [applyQuestionMatches_cons, ih]
    have hlen : (if 0 ≤ mi ∧ mi.toNat < answers.length ∧ mi.toNat < ua.length ∧
        pyTruthy (ua.getD mi.toNat none) then
          answers.set mi.toNat (ua.getD mi.toNat none)
        else answers).length = answers.length := by
      split
      · exact List.length_set answers _ _
      · rfl
    rw [hlen]
    by_cases hT : (j : Int) ∈ rest ∧ j < answers.length ∧ j < ua.length ∧
        pyTruthy (ua.getD j none)
    · rw [if_pos hT, if_pos ⟨List.mem_cons_of_mem mi hT.1, hT.2⟩]
    · rw [if_neg hT]
      by_cases hT2 : (j : Int) ∈ mi :: rest ∧ j < answers.length ∧ j < ua.length ∧
          pyTruthy (ua.getD j none)
      · have hmi : mi = (j : Int) := by
          rcases List.mem_cons.mp hT2.1 with h | h
          · exact h.symm
          · exact absurd ⟨h, hT2.2⟩ hT
        have hC : 0 ≤ mi ∧ mi.toNat < answers.length ∧ mi.toNat < ua.length ∧
            pyTruthy (ua.getD mi.toNat none) := by
          subst hmi
          exact ⟨Int.natCast_nonneg j, by simpa using hT2.2⟩
        rw [if_pos hT2, if_pos hC, hmi]
        simp only [Int.toNat_natCast]
        rw [List.getElem?_set, if_pos rfl, if_pos hT2.2.1]
      · rw [if_neg hT2]
        split
        · rename_i hC
          rw [List.getElem?_set]
          have hne : mi.toNat ≠ j := by
            intro he
            refine hT2 ⟨?_, he ▸ hC.2.1, he ▸ hC.2.2.1, by
              have := hC.2.2.2
              rwa [he] at this⟩
            have : mi = (j : Int) := by omega
            exact this ▸ List.mem_cons_self mi rest
          rw [if_neg hne]
        · rfl

/-- Pointwise value of the index-free threshold loop started at offset `k`. -/
lemma getElem?_thresholdPassGo (ua : List (Option String)) (k : Nat)
    (a : List (Option String)) (j : Nat) :
    (thresholdPassGo ua k a)[j]? =
      (a[j]?).map (fun ans =>
        if k + j < ua.length ∧ pyTruthy (ua.getD (k + j) none) ∧
            thresholdOverwrite ans then
          ua.getD (k + j) none
        else ans) := by
  induction a generalizing k j with
  | nil => simp [thresholdPassGo]
  | cons y ys ih =>
    cases j with
    | zero => simp [thresholdPassGo]
    | succ n =>
      have harith : k + (n + 1) = (k + 1) + n := by omega
      simp only [thresholdPassGo, List.getElem?_cons_succ, harith]
      exact ih (k + 1) n

/-- Pointwise value of `thresholdPass`. -/
lemma getElem?_thresholdPass (ua a : List (Option String)) (j : Nat) :
    (thresholdPass a ua)[j]? =
      (a[j]?).map (fun ans =>
        if j < ua.length ∧ pyTruthy (ua.getD j none) ∧ thresholdOverwrite ans then
          ua.getD j none
        else ans) := by
  have h := getElem?_thresholdPassGo ua 0 a j
  simpa [thresholdPass] using h

/-- When no question shares a word with the utterance, the keyword
fallback writes nothing. -/
lemma applyFallback_of_no_matches {u : String} {qs : List String}
    (a ua : List (Option String)) (h : detect_question_matches u qs = []) :
    applyFallback a u qs ua = a := by
  unfold applyFallback
  rw [h]

/-! ## Claim theorems -/

/-- C1: for every initialized section, after a reconciliation step the
answer array has exactly the length of the recommended-question list and
no slot is null; the resize allocates `len(questions)` empty strings,
copies `min(len(existing), len(questions))` entries positionally from the
front and pads new indices with empty text. -/
theorem c1_answer_array_invariant
    (existing : Option (List (Option String))) (questions : List String)
    (user_text : String) (d : ReconDecision)
    (h : ∀ l, existing = some l → ∀ a ∈ l, a.isSome) :
    (nodeAnswersAfter existing questions user_text d).length = questions.length ∧
    (∀ a ∈ nodeAnswersAfter existing questions user_text d, a.isSome) ∧
    (∀ l, existing = some l → ∀ j : Nat,
      (safe_initialize_answers (some l) questions)[j]? =
        if j < min l.length questions.length then l[j]?
        else if j < questions.length then some (some "") else none) := by
  refine ⟨?_, ?_, fun l _ j => getElem?_safe_initialize_some l questions j⟩
  · show (if d.question_matches.isSome ∨ d.updated_answers.isSome then
        reconcileAnswers (safe_initialize_answers existing questions)
          user_text questions d
      else safe_initialize_answers existing questions).length = questions.length
    split
    · rw [length_reconcileAnswers, safe_initialize_length]
    · exact safe_initialize_length existing questions
  · show ∀ a ∈ (if d.question_matches.isSome ∨ d.updated_answers.isSome then
        reconcileAnswers (safe_initialize_answers existing questions)
          user_text questions d
      else safe_initialize_answers existing questions), a.isSome
    split
    · exact forall_isSome_reconcileAnswers user_text questions d
        (safe_initialize_forall_isSome questions h)
    · exact safe_initialize_forall_isSome questions h

theorem c1_answer_array_invariant_witness :
    (nodeAnswersAfter (some [some "x"]) ["q1", "q2"] ""
      ⟨some [0], some [some "hello"]⟩).length = 2 ∧
    ∀ a ∈ nodeAnswersAfter (some [some "x"]) ["q1", "q2"] ""
      ⟨some [0], some [some "hello"]⟩, a.isSome := by
  have h := c1_answer_array_invariant (some [some "x"]) ["q1", "q2"] ""
    ⟨some [0], some [some "hello"]⟩ (fun l hl => by cases hl; decide)
  exact ⟨h.1, h.2.1⟩

/-- C4: with both `question_matches` and `updated_answers` supplied,
reconciliation writes `updated_answers[i]` into slot `i` for exactly the
listed indices that are valid in both arrays and carry a non-empty value,
leaving every other index untouched; in particular the stated concrete
instance yields `["a", "", "z"]`. -/
theorem c4_indexed_answer_placement :
    (∀ (answers ua : List (Option String)) (qm : List Int) (u : String)
        (qs : List String) (j : Nat),
      (reconcileAnswers answers u qs ⟨some qm, some ua⟩)[j]? =
        if (j : Int) ∈ qm ∧ j < answers.length ∧ j < ua.length ∧
            pyTruthy (ua.getD j none) then
          some (ua.getD j none)
        else answers[j]?) ∧
    reconcileAnswers [some "a", some "", some ""] "" ["q0", "q1", "q2"]
        ⟨some [2], some [some "", some "", some "z"]⟩ =
      [some "a", some "", some "z"] := by
  constructor
  · intro answers ua qm u qs j
    exact getElem?_applyQuestionMatches qm ua answers j
  · decide

/-- C5 counterexample: the claim asserts that `existing = ["short"]` with
index-free `updated_answers = ["a fuller answer"]` has slot 0 overwritten
by the below-threshold rule; but `"short"` is 5 characters, not below the
strictly-fewer-than-5 threshold, and the code leaves the slot untouched
(instance with an utterance sharing no word with the question, so the
keyword fallback writes nothing either). -/
theorem c5_counterexample :
    "short".length = 5 ∧
    reconcileAnswers [some "short"] "" ["q"]
        ⟨none, some [some "a fuller answer"]⟩ = [some "short"] := by
  decide

/-- C5 (amended): when the decision supplies `updated_answers` without
explicit indices and the utterance shares no word with any open question
(so the unconditional keyword fallback writes nothing), slot `i` is
overwritten exactly when the supplied value at `i` is non-empty and the
existing value is empty or strips to fewer than 5 characters; a
4-character answer is overwritten, while the 5-character `"short"` and
longer answers are protected. -/
theorem c5_threshold_overwrite_rule
    (answers ua : List (Option String)) (u : String) (qs : List String)
    (j : Nat) (hq : detect_question_matches u qs = []) :
    (reconcileAnswers answers u qs ⟨none, some ua⟩)[j]? =
      (answers[j]?).map (fun ans =>
        if j < ua.length ∧ pyTruthy (ua.getD j none) ∧ thresholdOverwrite ans then
          ua.getD j none
        else ans) := by
  show (applyFallback (thresholdPass answers ua) u qs ua)[j]? = _
  rw [applyFallback_of_no_matches _ _ hq]
  exact getElem?_thresholdPass ua answers j

theorem c5_threshold_overwrite_rule_witness :
    (reconcileAnswers [some "shrt"] "" ["q"]
        ⟨none, some [some "a fuller answer"]⟩)[0]? =
      some (some "a fuller answer") ∧
    (reconcileAnswers [some "a sufficiently long prior answer"] "" ["q"]
        ⟨none, some [some "x"]⟩)[0]? =
      some (some "a sufficiently long prior answer") := by
  constructor
  · rw [c5_threshold_overwrite_rule [some "shrt"] [some "a fuller answer"]
      "" ["q"] 0 (by decide)]
    decide
  · rw [c5_threshold_overwrite_rule [some "a sufficiently long prior answer"]
      [some "x"] "" ["q"] 0 (by decide)]
    decide

/-- C6 (evaluating the code at the failing input): the keyword fallback is
the `else` clause of a `for` loop with no `break`, so it runs after every
completed threshold pass, not only when no structured match was available.
Here the index-free pass has already placed both supplied answers
(`["a0", "a1"]`), yet the fallback still fires and overwrites the
best-matching question slot 1 with the first unused value `"a0"`. -/
theorem c6_fallback_overwrites_after_threshold :
    thresholdPass [some "", some ""] [some "a0", some "a1"] =
      [some "a0", some "a1"] ∧
    detect_question_matches "python experience details"
        ["alpha beta", "python experience details"] ≠ [] ∧
    reconcileAnswers [some "", some ""] "python experience details"
        ["alpha beta", "python experience details"]
        ⟨none, some [some "a0", some "a1"]⟩ =
      [some "a0", some "a0"] := by
  refine ⟨by decide, by decide, by decide⟩

/-- C2 counterexample: at a state holding old content, a question and a
previously captured answer, a failure of the re-analysis step (completion
raising, modelled by the error oracle) leaves `resume_sections` at the new
content (not rolled back), leaves `recommended_answers` cleared to the
empty array (not restored), and leaves `section_objects` untouched — the
sequence is half-applied, contradicting the claimed rollback. -/
theorem c2_rollback_counterexample :
    (apply_section_changes
        { resume_sections := [("skills", JValue.str "old content")]
          section_objects := [("skills", { recommended_questions := ["q1"] })]
          recommended_answers := [("skills", [some "prev answer"])] }
        "skills" "new content" false none (Except.error ())).1.resume_sections =
      [("skills", JValue.str "new content")] ∧
    (apply_section_changes
        { resume_sections := [("skills", JValue.str "old content")]
          section_objects := [("skills", { recommended_questions := ["q1"] })]
          recommended_answers := [("skills", [some "prev answer"])] }
        "skills" "new content" false none (Except.error ())).1.recommended_answers =
      [("skills", ([] : List (Option String)))] ∧
    (apply_section_changes
        { resume_sections := [("skills", JValue.str "old content")]
          section_objects := [("skills", { recommended_questions := ["q1"] })]
          recommended_answers := [("skills", [some "prev answer"])] }
        "skills" "new content" false none (Except.error ())).1.section_objects =
      [("skills", { recommended_questions := ["q1"] })] ∧
    ¬ ([("skills", JValue.str "new content")] =
        [("skills", JValue.str "old content")]) := by
  refine ⟨rfl, rfl, rfl, ?_⟩
  simp

/-- C2 (amended): the apply sequence is not transactional. When the
re-analysis step fails, the state keeps every mutation made before the
failure: the new section content stays in `resume_sections`, the answer
array stays cleared to the empty list, `cv_summary` keeps whatever the
aggregation step produced, `section_objects` keeps its pre-call value,
and the fallback analysis result (which reports the changes as saved) is
returned. -/
theorem c2_apply_failure_keeps_partial_state (st : ResumeBuilderState)
    (s content : String) (cvO : Option (List (String × String))) :
    (apply_section_changes st s content false cvO (Except.error ())).2 =
      errorAnalysis s ∧
    (apply_section_changes st s content false cvO
      (Except.error ())).1.section_objects = st.section_objects ∧
    (apply_section_changes st s content false cvO
      (Except.error ())).1.resume_sections =
      dictSet st.resume_sections s (JValue.str content) ∧
    (apply_section_changes st s content false cvO
      (Except.error ())).1.recommended_answers =
      dictSet st.recommended_answers s [] ∧
    (apply_section_changes st s content false cvO (Except.error ())).1.cv_summary =
      (if ((dictGet st.section_objects s).getD {}).recommended_questions ≠ [] ∧
          (dictGet st.recommended_answers s).getD [] ≠ [] then
        cvO.getD st.cv_summary
      else st.cv_summary) ∧
    (apply_section_changes st s content false cvO
      (Except.error ())).1.current_section = st.current_section ∧
    (apply_section_changes st s content false cvO (Except.error ())).1.context =
      st.context := by
  by_cases hc : ((dictGet st.section_objects s).getD {}).recommended_questions ≠ [] ∧
      (dictGet st.recommended_answers s).getD [] ≠ []
  · cases cvO <;>
      simp only [apply_section_changes, if_pos hc] <;>
      exact ⟨rfl, rfl, rfl, rfl, rfl, rfl, rfl⟩
  · cases cvO <;>
      simp only [apply_section_changes, if_neg hc] <;>
      exact ⟨rfl, rfl, rfl, rfl, rfl, rfl, rfl⟩

/-- C3 (evaluating the code at the failing input): on the empty response
text the decision parser raises its typed error, yet the gateway returns
the same safe default decision it returns for a transport failure — the
single `except Exception` clause of `call_llm_json_decision` swallows the
parser error instead of propagating it, so the caller cannot distinguish
"LLM unreachable" from "LLM responded with garbage". -/
theorem c3_parser_failure_swallowed :
    extract_and_validate_json "" =
      Except.error (PyError.valueError "Empty response from LLM") ∧
    call_llm_json_decision false (Except.ok "") = errorDecision ∧
    call_llm_json_decision false (Except.error ()) = errorDecision :=
  ⟨rfl, rfl, rfl⟩

/-- C7 counterexample: a located, valid JSON object carrying an `action`
key whose value is outside the valid-action set — the claim says it is
returned with the action coerced to `answer` — instead makes the parser
raise: the membership test `parsed["action"] not in valid_actions` hashes
the value, and a JSON array is unhashable. -/
theorem c7_unhashable_action_counterexample :
    findJsonMatch "\x7b\"action\": []\x7d" = some "\x7b\"action\": []\x7d" ∧
    parseJson "\x7b\"action\": []\x7d" =
      some (JValue.obj [("action", JValue.arr [])]) ∧
    lookupKey [("action", JValue.arr [])] "action" = some (JValue.arr []) ∧
    isValidAction (JValue.arr []) = false ∧
    extract_and_validate_json "\x7b\"action\": []\x7d" =
      Except.error (PyError.typeError "unhashable type") :=
  ⟨rfl, rfl, rfl, rfl, rfl⟩

/-- C7 (amended): the decision parser raises exactly when the input is
empty or whitespace-only, a located JSON object fails to parse, parses to
a non-object, lacks the `action` key, or carries an unhashable (array or
object) `action` value; text with no locatable JSON object yields the
degraded answer decision without raising, and a hashable `action` value
outside the valid set is coerced to `answer` rather than raising. -/
theorem c7_parser_raise_conditions (raw : String) :
    (pyStrip raw = "" → extract_and_validate_json raw =
      Except.error (PyError.valueError "Empty response from LLM")) ∧
    (pyStrip raw ≠ "" → findJsonMatch raw = none →
      extract_and_validate_json raw = Except.ok (degradedDecision raw)) ∧
    (∀ jtxt, pyStrip raw ≠ "" → findJsonMatch raw = some jtxt →
      ((parseJson jtxt = none → extract_and_validate_json raw =
          Except.error (PyError.valueError "Invalid JSON format")) ∧
       (∀ v, parseJson jtxt = some v → (∀ kvs, v ≠ JValue.obj kvs) →
          extract_and_validate_json raw =
            Except.error (PyError.valueError "Response is not a JSON object")) ∧
       (∀ kvs, parseJson jtxt = some (JValue.obj kvs) →
         ((lookupKey kvs "action" = none → extract_and_validate_json raw =
            Except.error
              (PyError.valueError "Missing required action key in JSON response")) ∧
          (∀ av, lookupKey kvs "action" = some av →
            ((isHashable av = false → extract_and_validate_json raw =
                Except.error (PyError.typeError "unhashable type")) ∧
             (isHashable av = true → isValidAction av = false →
                extract_and_validate_json raw =
                  Except.ok (setKey kvs "action" (JValue.str "answer"))) ∧
             (isValidAction av = true → extract_and_validate_json raw =
                Except.ok kvs))))))) := by
  refine ⟨fun h => by simp [extract_and_validate_json, h], ?_, ?_⟩
  · intro h hn
    simp [extract_and_validate_json, h, hn]
  · intro jtxt h hj
    refine ⟨?_, ?_, ?_⟩
    · intro hp
      simp [extract_and_validate_json, h, hj, hp]
    · intro v hp hnobj
      cases v with
      | obj kvs => exact absurd rfl (hnobj kvs)
      | null => simp [extract_and_validate_json, h, hj, hp]
      | bool b => simp [extract_and_validate_json, h, hj, hp]
      | num m e => simp [extract_and_validate_json, h, hj, hp]
      | str s => simp [extract_and_validate_json, h, hj, hp]
      | arr xs => simp [extract_and_validate_json, h, hj, hp]
    · intro kvs hp
      refine ⟨fun ha => by simp [extract_and_validate_json, h, hj, hp, ha], ?_⟩
      intro av hav
      refine ⟨?_, ?_, ?_⟩
      · intro hh
        simp [extract_and_validate_json, h, hj, hp, hav, hh]
      · intro hh hv
        simp [extract_and_validate_json, h, hj, hp, hav, hh, hv]
      · intro hv
        have hh : isHashable av = true := by
          cases av with
          | str s => rfl
          | null => rfl
          | bool b => rfl
          | num m e => rfl
          | arr xs => exact absurd hv (by simp [isValidAction])
          | obj kvs2 => exact absurd hv (by simp [isValidAction])
        simp [extract_and_validate_json, h, hj, hp, hav, hh, hv]

theorem c7_parser_raise_conditions_witness :
    extract_and_validate_json "plain text with no json" =
      Except.ok (degradedDecision "plain text with no json") :=
  (c7_parser_raise_conditions "plain text with no json").2.1 (by decide) (by decide)

/-- C8: when `current_section` is already set at turn start, the
top-level router short-circuits: its outcome is the same for every LLM
oracle (no LLM call can influence it), it appends the
`\x7b"route": current_section\x7d` signal message, and it leaves
`current_section` unchanged. -/
theorem c8_router_short_circuit (st : ResumeBuilderState) (cs : String)
    (h : st.current_section = some cs) :
    (∀ o1 l1 o2 l2, general_chat_and_section_routing st o1 l1 =
      general_chat_and_section_routing st o2 l2) ∧
    (∀ o l, general_chat_and_section_routing st o l =
      ({ st with context := st.context ++
          [⟨"assistant", jdumps (JValue.obj [("route", JValue.str cs)])⟩] },
        NodeReturn.state)) ∧
    (∀ o l, (general_chat_and_section_routing st o l).1.current_section = some cs) := by
  have key : ∀ o l, general_chat_and_section_routing st o l =
      ({ st with context := st.context ++
          [⟨"assistant", jdumps (JValue.obj [("route", JValue.str cs)])⟩] },
        NodeReturn.state) := by
    intro o l
    simp only [general_chat_and_section_routing, h]
  refine ⟨fun o1 l1 o2 l2 => by rw [key, key], key, fun o l => by rw [key]; exact h⟩

theorem c8_router_short_circuit_witness :
    general_chat_and_section_routing { current_section := some "skills" } true
        (Except.error ()) =
      ({ current_section := some "skills"
         context := [⟨"assistant", jdumps (JValue.obj [("route", JValue.str "skills")])⟩] },
        NodeReturn.state) :=
  (c8_router_short_circuit { current_section := some "skills" } "skills" rfl).2.1
    true (Except.error ())

/-- C9: whenever `src_node` equals `current_section` after a section
turn, the dispatch decision is the `END` sentinel — never a section node
— so the turn terminates instead of re-entering the section. -/
theorem c9_self_route_terminates (st : ResumeBuilderState)
    (h : st.src_node = st.current_section) :
    route_to_section st = RouteTarget.toEnd ∧
    ∀ s, route_to_section st ≠ RouteTarget.section s := by
  have he : route_to_section st = RouteTarget.toEnd := by
    simp only [route_to_section, if_pos h]
  exact ⟨he, fun s hs => by rw [he] at hs; exact RouteTarget.noConfusion hs⟩

theorem c9_self_route_terminates_witness :
    route_to_section
        { current_section := some "skills", src_node := some "skills" } =
      RouteTarget.toEnd :=
  (c9_self_route_terminates
    { current_section := some "skills", src_node := some "skills" } rfl).1

/-- C10: the per-turn clone carries forward `jd_summary`,
`resume_sections`, `section_objects`, `context`, `current_section`,
`cv_summary` and `recommended_answers`, while `src_node`,
`routing_attempts` and `resume_schema` take the fresh-state defaults
(`none`, 0, `none`) whatever the old values were. -/
theorem c10_clone_state_fields (old_state : ResumeBuilderState) :
    (clone_state old_state).jd_summary = old_state.jd_summary ∧
    (clone_state old_state).resume_sections = old_state.resume_sections ∧
    (clone_state old_state).section_objects = old_state.section_objects ∧
    (clone_state old_state).context = old_state.context ∧
    (clone_state old_state).current_section = old_state.current_section ∧
    (clone_state old_state).cv_summary = old_state.cv_summary ∧
    (clone_state old_state).recommended_answers = old_state.recommended_answers ∧
    (clone_state old_state).src_node = none ∧
    (clone_state old_state).routing_attempts = 0 ∧
    (clone_state old_state).resume_schema = none :=
  ⟨rfl, rfl, rfl, rfl, rfl, rfl, rfl, rfl, rfl, rfl⟩
